import Mathlib

/-!
# Verification of the slogger repository

A shallow embedding, in Lean 4, of the parts of the slogger code base that
the specification's testable properties talk about:

* `elasticsearch/core/utils.py` — the query DSL (`TermQuery`,
  `QueryStringQuery`, `RawQuery`, `FilteredQuery`, `Facet`), `parse_query`
  and `build_query`;
* `elasticsearch/core/queryset.py` — `ElasticsearchQueryset` and its
  dirty-flag discipline;
* `elasticsearch/core/store.py` — `ElasticsearchConnection` (round-robin
  failover over a cluster);
* `search.py` — `ESAgent` (score-based failover);
* `loggers.py` — `MultiChannelFileLogger` routing and
  `BufferedLogger_Mixin.flush`.

Python dictionaries are embedded as insertion-ordered association lists,
JSON values as the inductive `JVal`, machine I/O (HTTP, file writes, the
wall clock) as explicit parameters or returned descriptions of the write
that would happen.  `json.dumps` is modelled up to the `JVal` it would
serialize: the embedding compares the values being serialized rather than
their concrete string renderings.
-/

set_option autoImplicit false

namespace Slogger

/-- A JSON value, the result of `json.loads` / the argument of
`json.dumps`.  Object fields are kept in Python dict insertion order. -/
inductive JVal where
  | null : JVal
  | bool : Bool → JVal
  | num : Int → JVal
  | str : String → JVal
  | arr : List JVal → JVal
  | obj : List (String × JVal) → JVal
  deriving Repr, Inhabited

namespace JVal

/-- Python truthiness of a JSON value: `None`, `False`, `0`, `''`, `[]`
and `\x7b\x7d` are falsy, everything else truthy. -/
def truthy : JVal → Bool
  | .null => false
  | .bool b => b
  | .num n => n != 0
  | .str s => !s.isEmpty
  | .arr xs => !xs.isEmpty
  | .obj fs => !fs.isEmpty

/-- `d.get(k)` on an embedded Python dict: first binding of `k`, if any. -/
def dictGet (fields : List (String × JVal)) (k : String) : Option JVal :=
  (fields.find? (fun kv => kv.1 = k)).map Prod.snd

/-- `response.get(k)` — `None` when the key is absent. -/
def get : JVal → String → JVal
  | .obj fs, k => (dictGet fs k).getD .null
  | _, _ => .null

/-- `response.get(k, default)`. -/
def getD : JVal → String → JVal → JVal
  | .obj fs, k, dflt => (dictGet fs k).getD dflt
  | _, _, dflt => dflt

end JVal

/-- `d[k] = v` on an embedded Python dict: replace the binding in place
when `k` is present, append it otherwise. -/
def dictSet (d : List (String × JVal)) (k : String) (v : JVal) :
    List (String × JVal) :=
  if d.any (fun kv => kv.1 = k) then
    d.map (fun kv => if kv.1 = k then (k, v) else kv)
  else
    d ++ [(k, v)]

/-- `d.update(other)` on embedded Python dicts. -/
def dictUpdate (d other : List (String × JVal)) : List (String × JVal) :=
  other.foldl (fun acc kv => dictSet acc kv.1 kv.2) d

/-! ## `elasticsearch/core/utils.py` — the query DSL

Each `ElasticsearchQuery` subclass stores the dict its `_build_query`
returns; the inductive keeps the constructor arguments and `toDict`
mirrors the corresponding `_build_query`. -/

/-- The `ElasticsearchQuery` subclasses of `utils.py`. -/
inductive ESQuery where
  /-- `RawQuery(query)` — any dict, run as-is. -/
  | rawQuery : JVal → ESQuery
  /-- `MatchAllQuery()`. -/
  | matchAllQuery : ESQuery
  /-- `TermQuery(term, value)`. -/
  | termQuery : String → String → ESQuery
  /-- `QueryStringQuery(query_string)`. -/
  | queryStringQuery : String → ESQuery
  /-- `FilteredQuery(and_queries)` (constructor raises on an empty or
  non-list argument; `build_query` only constructs it from a non-empty
  list, which is the only way it is reached in this development). -/
  | filteredQuery : List ESQuery → ESQuery
  /-- `Facet(facet)`. -/
  | facet : String → ESQuery
  deriving Repr

namespace ESQuery

mutual

/-- The `_query` dict each subclass's `_build_query` constructs
(`wrapAnd` is the loop in `FilteredQuery._build_query`, which wraps
query_string queries in an extra dict). -/
def toDict : ESQuery → JVal
  | .rawQuery q => q
  | .matchAllQuery => .obj [("match_all", .obj [])]
  | .termQuery term value => .obj [("term", .obj [(term, .str value)])]
  | .queryStringQuery qs =>
      .obj [("query_string", .obj [("query", .str qs)])]
  | .filteredQuery and_queries =>
      .obj [("constant_score",
        .obj [("filter", .obj [("and", .arr (wrapAnd and_queries))])])]
  | .facet f => .obj [(f, .obj [("terms", .obj [("field", .str f)])])]

/-- The loop body of `FilteredQuery._build_query`. -/
def wrapAnd : List ESQuery → List JVal
  | [] => []
  | q :: rest =>
      (match q with
       | .queryStringQuery _ => JVal.obj [("query", toDict q)]
       | _ => toDict q) :: wrapAnd rest

end

/-- `isinstance(query, RawQuery)`. -/
def isRaw : ESQuery → Bool
  | .rawQuery _ => true
  | _ => false

end ESQuery

/-- The `query` argument of `build_query` as it arrives from Python: the
caller may pass `None`, a single query object, or a list of query
objects. -/
inductive QueryInput where
  | noneV : QueryInput
  | single : ESQuery → QueryInput
  | listV : List ESQuery → QueryInput
  deriving Repr

/-- `parse_query(query_string=None, **kwargs)` from `utils.py`.

`query_string` is `Option String` (`none` is the `None` default); the
keyword arguments are embedded as the association list of field/value
pairs, iterated by `kwargs.items()` in that order.  The truthiness test
`if query_string:` skips both `None` and the empty string. -/
def parse_query (query_string : Option String)
    (kwargs : List (String × String)) : List ESQuery :=
  let queries : List ESQuery :=
    match query_string with
    | some s => if s ≠ "" then [.queryStringQuery s] else []
    | none => []
  queries ++ kwargs.map (fun kv => .termQuery kv.1 kv.2)

/-- `build_query(query, facets=None)` from `utils.py`, up to
`json.dumps`: the result is the `JVal` that would be serialized, or
`none` when the Python function returns `None` without serializing
anything.

The source reads:

```
if not isinstance(query, RawQuery):
    if query and type(query) == list:
        query = FilteredQuery(and_queries=query)
    if facets and type(facets) != list:
        facets = [facets]
    if query:
        query = ...dict...
    return json.dumps(query)
```

The `return` statement is indented inside the `if not isinstance(query,
RawQuery):` block, so when `query` is a `RawQuery` the function body is
skipped entirely and Python returns `None`.  The `facets` argument is
already a list here (the coercion branch for a bare facet is identity on
this representation). -/
def build_query (query : QueryInput) (facets : List ESQuery) : Option JVal :=
  -- the body of `query['facets'] = ...; for facet in facets: update(...)`
  let facetsDict : List (String × JVal) :=
    facets.foldl (fun acc fc =>
      match fc.toDict with
      | .obj fields => dictUpdate acc fields
      | _ => acc) []
  -- `query = dict; if facets: attach facets` for a truthy query object
  let compose : ESQuery → JVal := fun q =>
    let base := [("query", q.toDict)]
    if facets.isEmpty then .obj base
    else .obj (dictSet base "facets" (.obj facetsDict))
  match query with
  | .single q =>
      if q.isRaw then
        none  -- falls off the end of the function: Python returns None
      else
        some (compose q)
  | .listV [] =>
      -- an empty list is falsy: it is neither wrapped in a FilteredQuery
      -- nor replaced by a dict, and json.dumps([]) is returned
      some (.arr [])
  | .listV qs =>
      some (compose (.filteredQuery qs))
  | .noneV =>
      -- json.dumps(None)
      some .null

/-! ## `elasticsearch/core/queryset.py` — `ElasticsearchQueryset`

The store round trip is abstracted as a function `client : SearchCall →
JVal` standing for `self._client.search(index, doctype, query, order_by,
size, offset)` (index and doctype are fixed per model and carry no
information for the properties below).  Result documents are kept as the
raw `_source` dicts; `self._model(**hit['_source'])` re-packaging is the
identity on this representation. -/

/-- The arguments `_refresh` passes to `self._client.search`. -/
structure SearchCall where
  query : Option JVal
  order_by : Option String
  size : Int
  offset : Int
  deriving Repr

/-- The mutable state of an `ElasticsearchQueryset`. -/
structure ElasticsearchQueryset where
  _query : List ESQuery
  _need_refresh : Bool
  _raw_response : JVal
  _time_took : JVal
  _timed_out : JVal
  _results : List JVal
  _facets : Option (List (String × List (JVal × JVal)))
  _faceted_on : List ESQuery
  _total_results : JVal
  _order_by : Option String
  _size : Int
  _offset : Int
  deriving Repr

namespace ElasticsearchQueryset

/-- `ElasticsearchQueryset.__init__(model, query=None)`.  The argument
arrives already coerced by `if type(self._query) != list: self._query =
[self._query]` (no claim exercises the `None`-in-a-list default). -/
def init (query : List ESQuery) : ElasticsearchQueryset :=
  { _query := query
    _need_refresh := true
    _raw_response := .obj []
    _time_took := .null
    _timed_out := .bool false
    _results := []
    _facets := none
    _faceted_on := []
    _total_results := .null
    _order_by := none
    _size := 100  -- default page size
    _offset := 0  -- start at the beginning by default
  }

/-- `_parse_facets(response)`: `\x7bk: [(term, count), ...]\x7d` from the
facet block.  (`v['terms']` raising on a response without a `terms` key
is flattened to the empty list; no claim exercises that malformed
shape.) -/
def parse_facets_of (response : JVal) : List (String × List (JVal × JVal)) :=
  match response.getD "facets" (.obj []) with
  | .obj fs =>
      fs.map (fun kv =>
        (kv.1,
         match kv.2.get "terms" with
         | .arr terms => terms.map (fun t => (t.get "term", t.get "count"))
         | _ => []))
  | _ => []

/-- `_parse_results(response)` — returns the pair (what it assigns to
`self._total_results`, the result list). -/
def parse_results_of (response : JVal) : JVal × List JVal :=
  let total := (response.getD "hits" (.obj [])).getD "total" (.num 0)
  let results :=
    if total.truthy then
      match (response.get "hits").get "hits" with
      | .arr hits => hits.map (fun h => h.get "_source")
      | _ => []
    else []
  (total, results)

/-- `_parse_raw_response(response)`. -/
def parse_raw_response (q : ElasticsearchQueryset) (response : JVal) :
    ElasticsearchQueryset :=
  let (total, results) := parse_results_of response
  { q with
    _raw_response := response
    _time_took := response.get "took"
    _timed_out := response.get "timed_out"
    _total_results := total
    _results := results
    _facets := some (parse_facets_of response)
    _need_refresh := false }

/-- `_refresh()`: build the query body, make the search call, parse. -/
def refresh (client : SearchCall → JVal) (q : ElasticsearchQueryset) :
    ElasticsearchQueryset :=
  let body := build_query (.listV q._query) q._faceted_on
  q.parse_raw_response (client ⟨body, q._order_by, q._size, q._offset⟩)

/-- `filter(query_string=None, **kwargs)`. -/
def filter (q : ElasticsearchQueryset) (query_string : Option String)
    (kwargs : List (String × String)) : ElasticsearchQueryset :=
  { q with
    _query := q._query ++ parse_query query_string kwargs
    _need_refresh := true }

/-- `order_by(order_by)`.  (`order_by[0]` raises on the empty string in
Python; the embedding reads `startsWith`, which agrees on every
non-empty argument.) -/
def order_by (q : ElasticsearchQueryset) (field : String) :
    ElasticsearchQueryset :=
  let (ord, name) :=
    if field.startsWith "-" then ("desc", field.drop 1) else ("asc", field)
  { q with _order_by := some (name ++ ":" ++ ord), _need_refresh := true }

/-- `facet(facet)`: appends `Facet(str(f))` for each facet name.  The
single-facet coercion `if facet and type(facet) != list: facet =
[facet]` is identity on this list representation.  Note that the method
does not touch `_need_refresh`. -/
def facet (q : ElasticsearchQueryset) (facets : List String) :
    ElasticsearchQueryset :=
  { q with _faceted_on := q._faceted_on ++ facets.map (fun f => .facet f) }

/-- `limit(limit)`: sets `_size` only; does not touch `_need_refresh`. -/
def limit (q : ElasticsearchQueryset) (n : Int) : ElasticsearchQueryset :=
  { q with _size := n }

/-- `__getitem__` with a slice argument (the non-negativity of both
bounds is asserted by the Python code before this point).  `None` and
`0` bounds are falsy, so their branches do not assign. -/
def getitem_slice (q : ElasticsearchQueryset) (start stop : Option Int) :
    ElasticsearchQueryset :=
  let q := { q with _need_refresh := true }
  let q :=
    match start with
    | some s => if s != 0 then { q with _offset := s } else q
    | none => q
  match stop with
  | some e => if e != 0 then { q with _size := e - q._offset } else q
  | none => q

/-- The `count()` method: refresh when dirty, then
`int(len(self._results))`. -/
def count (client : SearchCall → JVal) (q : ElasticsearchQueryset) :
    Nat × ElasticsearchQueryset :=
  let q := if q._need_refresh then q.refresh client else q
  (q._results.length, q)

/-- The `results` property (what `__list__`/`__iter__` force). -/
def results (client : SearchCall → JVal) (q : ElasticsearchQueryset) :
    List JVal × ElasticsearchQueryset :=
  let q := if q._need_refresh then q.refresh client else q
  (q._results, q)

/-- The `facets` property. -/
def facets (client : SearchCall → JVal) (q : ElasticsearchQueryset) :
    Option (List (String × List (JVal × JVal))) × ElasticsearchQueryset :=
  let q := if q._need_refresh then q.refresh client else q
  (q._facets, q)

end ElasticsearchQueryset

/-! ## `elasticsearch/core/store.py` — `ElasticsearchConnection`

The network is abstracted per attempt: `outcomes k` is what the `k`-th
iteration of the retry loop observes inside its `try:` block — either an
exception raised while connecting/requesting/reading (`.exn`, carrying
the traceback text), or the raw response bytes (`.body`).  `json.loads`
is abstracted as `decode : String → Option JVal` (`none` = the
`ValueError` it raises on malformed input). -/

/-- What one iteration's `try:` block observes. -/
inductive FetchOutcome where
  | exn : String → FetchOutcome
  | body : String → FetchOutcome
  deriving Repr

/-- How `ElasticsearchConnection._request` can end. -/
inductive ConnResult where
  /-- a decoded, validated response is returned -/
  | ok : JVal → ConnResult
  /-- `ElasticsearchException` raised by `_validate_response`, carrying
  the response's `error` field -/
  | esException : JVal → ConnResult
  /-- the `ValueError` from `json.loads(res)` — raised outside the
  `try:` block, so it propagates to the caller uncaught -/
  | decodeError : ConnResult
  /-- `NoNodesLeft`, whose message embeds the traceback of
  `last_exception` (`none` only if no attempt ever ran) -/
  | noNodesLeft : Option String → ConnResult
  deriving Repr

/-- The state of an `ElasticsearchConnection`: the cluster list and the
round-robin cursor (`__init__` seeds the cursor with
`random.randint(0, len(cluster))`; the seed is a parameter here). -/
structure ElasticsearchConnection where
  _cluster : List String
  _current_node : Nat
  deriving Repr

namespace ElasticsearchConnection

/-- `_get_node()`: the cluster entry at `_current_node % len`, bumping
the cursor.  (The index is always in range for a non-empty cluster; the
`""` default is never read there.) -/
def get_node (st : ElasticsearchConnection) :
    String × ElasticsearchConnection :=
  let next_node := st._current_node % st._cluster.length
  (st._cluster.getD next_node "", { st with _current_node := st._current_node + 1 })

/-- One run of `_request`'s `for i in range(len(self._cluster))` loop
with `remaining` iterations left, plus the nodes attempted so far. -/
def request_loop (decode : String → Option JVal)
    (outcomes : Nat → FetchOutcome) (st : ElasticsearchConnection)
    (remaining k : Nat) (last_exception : Option String)
    (attempts : List String) :
    List String × ConnResult × ElasticsearchConnection :=
  match remaining with
  | 0 => (attempts, .noNodesLeft last_exception, st)
  | r + 1 =>
    let (node, st') := st.get_node
    match outcomes k with
    | .exn e =>
        -- record it and try another node
        request_loop decode outcomes st' r (k + 1) (some e) (attempts ++ [node])
    | .body raw =>
        -- `else:` — we got a response, so we load it, validate, and
        -- return or throw
        match decode raw with
        | none => (attempts ++ [node], .decodeError, st')
        | some res =>
            if (res.get "error").truthy then
              (attempts ++ [node], .esException (res.get "error"), st')
            else
              (attempts ++ [node], .ok res, st')

/-- `_request(...)` (the argument tuple is irrelevant to the control
flow and elided). -/
def request (decode : String → Option JVal) (outcomes : Nat → FetchOutcome)
    (st : ElasticsearchConnection) :
    List String × ConnResult × ElasticsearchConnection :=
  request_loop decode outcomes st st._cluster.length 0 none []

end ElasticsearchConnection

/-! ## `search.py` — `ESAgent`

Per-attempt transport outcomes are abstracted as `failsAt : Nat →
Option String`: `some e` means the `k`-th `self._agent.request(...)`
deferred errbacks with failure `e`, `none` that it succeeds.  The
failure value is discarded by `_request_failed_callback` (its docstring:
"doesn't matter for now").  CPython 2's arbitrary dict iteration order
is abstracted as insertion order, so `sorted`'s stable tie-breaking
follows the constructor's host-list order. -/

/-- An `ESAgent`: the host→score dict and the computed request limit. -/
structure ESAgent where
  _hosts : List (String × Int)
  _request_limit : Nat
  deriving Repr

namespace ESAgent

/-- `__init__(agent, hosts, request_limit=None)`: every host starts at
score 0; `if not request_limit or request_limit < 1` falls back to
trying every host. -/
def init (hosts : List String) (request_limit : Option Int) : ESAgent :=
  { _hosts := hosts.map (fun h => (h, 0))
    _request_limit :=
      match request_limit with
      | none => hosts.length
      | some l => if l < 1 then hosts.length else l.toNat }

/-- `self._hosts[h] -= 1`. -/
def decScore (hosts : List (String × Int)) (h : String) :
    List (String × Int) :=
  hosts.map (fun kv => if kv.1 = h then (kv.1, kv.2 - 1) else kv)

/-- Stable insertion of a host into a score-ascending list (an earlier
host goes before later hosts with an equal score, like Python's stable
`sorted`). -/
def insertByScore (h : String × Int) :
    List (String × Int) → List (String × Int)
  | [] => [h]
  | x :: xs => if h.2 ≤ x.2 then h :: x :: xs else x :: insertByScore h xs

/-- `sorted(self._hosts, key=lambda host: self._hosts[host])`. -/
def sortByScore : List (String × Int) → List (String × Int)
  | [] => []
  | x :: xs => insertByScore x (sortByScore xs)

/-- How a `request` call ends: the host whose attempt succeeded, or the
`ESError` message (a fixed string that does not mention the underlying
failure). -/
inductive AgentResult where
  | ok : String → AgentResult
  | esError : String → AgentResult
  deriving Repr

/-- `_request_one_host` together with `_request_failed_callback`.

Each attempt targets `hosts_to_try[-1]` (the *last* element).  On
failure the callback runs `self._hosts[hosts_to_try.pop(0)] -= 1`: it
pops the *first* element and decrements *that* host's score (its own
comment says "pop off the last host"), then retries on the shrunken
list — whose last element, the host that just failed, is unchanged
unless the list is now empty. -/
def request_one_host (failsAt : Nat → Option String) (k : Nat)
    (hosts_to_try : List String) (scores : List (String × Int))
    (attempts : List String) :
    List String × AgentResult × List (String × Int) :=
  match hosts_to_try with
  | [] =>
      -- unreachable: `request` and the callback only call this with a
      -- non-empty list (Python would raise IndexError on [-1])
      (attempts, .esError "", scores)
  | h :: t =>
    let target := (h :: t).getLast (by simp)
    let attempts := attempts ++ [target]
    match failsAt k with
    | none => (attempts, .ok target, scores)
    | some _ =>
        let scores := decScore scores h
        if t.isEmpty then
          (attempts, .esError "No elastic search hosts are responding.", scores)
        else
          request_one_host failsAt (k + 1) t scores attempts

/-- `request(method, uri_subpath, query)`: rank the hosts by score,
truncate to the request limit, then walk `_request_one_host`. -/
def request (agent : ESAgent) (failsAt : Nat → Option String) :
    List String × AgentResult × List (String × Int) :=
  let hosts_to_try :=
    ((sortByScore agent._hosts).map Prod.fst).take agent._request_limit
  request_one_host failsAt 0 hosts_to_try agent._hosts []

end ESAgent

/-! ## `loggers.py` — file sinks and the buffering mixin

`time.asctime(time.localtime(t))` is abstracted as a parameter
`asctime : Nat → String`; file writes are returned as descriptions
(`LogWrite`) of the write that would happen. -/

/-- One buffered message: the `(message_time, message, user, channel)`
tuple that `log` appends to `self._buffer`. -/
structure IRCMessage where
  message_time : Nat
  message : String
  user : String
  channel : String
  deriving Repr

/-- `message_to_string(message_time, message, user, channel)`. -/
def message_to_string (asctime : Nat → String) (m : IRCMessage) : String :=
  "[" ++ m.channel ++ "] " ++ asctime m.message_time ++ " :  <" ++
    m.user ++ "> " ++ m.message

/-- The rotation behaviour of a log file object: `DailyFileLogger`
rotates daily, `twisted.python.logfile.LogFile` rotates at a size. -/
inductive RotatePolicy where
  | daily : RotatePolicy
  | bySize : Int → RotatePolicy
  deriving Repr

/-- A `MultiChannelFileLogger`: one `DailyFileLogger` per configured
channel and one size-rotated `LogFile` for system messages (the
directory and file mode do not affect routing and are elided). -/
structure MultiChannelFileLogger where
  _channel_loggers : List (String × RotatePolicy)
  _system_logger : RotatePolicy
  deriving Repr

/-- Where one `log` call writes, and the exact line written. -/
inductive LogWrite where
  /-- `self._channel_loggers[channel].log(...)` — that channel's
  `DailyFileLogger` -/
  | channelFile : String → String → LogWrite
  /-- `self._system_logger.write(...)` -/
  | systemFile : String → LogWrite
  deriving Repr

namespace MultiChannelFileLogger

/-- `__init__(directory, channels=None, defaultMode=None,
systemRotateLength=1000000)`. -/
def init (channels : List String) (systemRotateLength : Int) :
    MultiChannelFileLogger :=
  { _channel_loggers := channels.map (fun c => (c, .daily))
    _system_logger := .bySize systemRotateLength }

/-- `MultiChannelFileLogger.log(message_time, message, user, channel)`.
`DailyFileLogger.log` writes `message_to_string(...) + '\n'`. -/
def log (asctime : Nat → String) (logger : MultiChannelFileLogger)
    (m : IRCMessage) : LogWrite :=
  if logger._channel_loggers.any (fun kv => kv.1 = m.channel) then
    .channelFile m.channel (message_to_string asctime m ++ "\n")
  else
    let formatted := message_to_string asctime m ++ "\n"
    let formatted :=
      if m.channel ≠ "SYSTEM_LOG" then
        "-- Received message from unknown channel:\n\t" ++ formatted
      else formatted
    .systemFile formatted

end MultiChannelFileLogger

/-- How one `BufferedLogger_Mixin.flush` call ends.  The `except`
handler's first statement is `log('FILE LOGGING FAILED - ...')`, where
`log` is the *module* `twisted.python.log` (imported by `from
twisted.python import log, logfile`) — calling a module raises
`TypeError`, so the handler itself throws before reaching
`self._buffer.append(msg)`, and the `inlineCallbacks` deferred errbacks
with that `TypeError`. -/
inductive FlushResult where
  | ok : FlushResult
  | typeError : FlushResult
  deriving Repr

/-- The `for msg in newbuffer:` loop of `flush`, accumulating the
post-swap `self._buffer`.  `sinkOk m` is whether
`super(self.__class__, self).log(*msg)` (run in a thread) succeeds for
`m`. -/
def flush_loop (sinkOk : IRCMessage → Bool) :
    List IRCMessage → List IRCMessage → List IRCMessage × FlushResult
  | [], buf => (buf, .ok)
  | m :: rest, buf =>
    if sinkOk m then
      flush_loop sinkOk rest buf
    else
      -- the handler raises TypeError; `self._buffer.append(msg)` on the
      -- following line is never executed, and the loop is abandoned
      (buf, .typeError)

/-- `BufferedLogger_Mixin.flush()`: snapshot the buffer (`newbuffer`),
swap in `[]`, then deliver each message.  Returns the post-swap
`self._buffer` as it stands when the call finishes, and how the call
ended. -/
def Buffered_flush (sinkOk : IRCMessage → Bool) (buffer : List IRCMessage) :
    List IRCMessage × FlushResult :=
  let newbuffer := buffer  -- `list(self._buffer)` (`[]` if falsy — same contents)
  flush_loop sinkOk newbuffer []

/-! ## Helper lemmas -/

/-- The `for` loop of `flush` never adds anything to the post-swap
buffer: either every delivery succeeds, or the failing handler raises
before `self._buffer.append(msg)` runs. -/
theorem flush_loop_fst (sinkOk : IRCMessage → Bool) :
    ∀ (msgs buf : List IRCMessage), (flush_loop sinkOk msgs buf).1 = buf := by
  intro msgs
  induction msgs with
  | nil => intro buf; rfl
  | cons m rest ih =>
      intro buf
      simp only [flush_loop]
      by_cases h : sinkOk m
      · simp [h, ih]
      · simp [h]

/-- After any `flush` call returns (successfully or not), `self._buffer`
is empty: nothing is ever re-appended. -/
theorem Buffered_flush_fst (sinkOk : IRCMessage → Bool)
    (buffer : List IRCMessage) : (Buffered_flush sinkOk buffer).1 = [] :=
  flush_loop_fst sinkOk buffer []

/-- When every attempt raises inside the `try:` block,
`ElasticsearchConnection`'s retry loop runs all its iterations and ends
in `NoNodesLeft` carrying the exception of the final attempt. -/
theorem conn_request_loop_all_exn (decode : String → Option JVal)
    (e : Nat → String) :
    ∀ (remaining k : Nat) (st : ElasticsearchConnection)
      (last : Option String) (atts : List String),
      (ElasticsearchConnection.request_loop decode (fun i => .exn (e i))
          st remaining k last atts).1.length = atts.length + remaining
      ∧ (ElasticsearchConnection.request_loop decode (fun i => .exn (e i))
          st remaining k last atts).2.1
        = (match remaining with
           | 0 => ConnResult.noNodesLeft last
           | r + 1 => ConnResult.noNodesLeft (some (e (k + r)))) := by
  intro remaining
  induction remaining with
  | zero => intro k st last atts; exact ⟨rfl, rfl⟩
  | succ r ih =>
      intro k st last atts
      simp only [ElasticsearchConnection.request_loop]
      have h := ih (k + 1) st.get_node.2 (some (e k)) (atts ++ [st.get_node.1])
      refine ⟨?_, ?_⟩
      · have h1 := h.1
        simp only [List.length_append, List.length_singleton] at h1
        rw [h1]
        omega
      · rw [h.2]
        cases r with
        | zero => rfl
        | succ r' =>
            show ConnResult.noNodesLeft (some (e (k + 1 + r')))
              = ConnResult.noNodesLeft (some (e (k + (r' + 1))))
            have hk : k + 1 + r' = k + (r' + 1) := by omega
            rw [hk]

/-- When every attempt fails, `_request_one_host` walks the whole
`hosts_to_try` list, makes one attempt per element, and ends in the
fixed-message `ESError`. -/
theorem agent_all_fail (e : Nat → String) :
    ∀ (hs : List String) (k : Nat) (scores : List (String × Int))
      (atts : List String), hs ≠ [] →
      (ESAgent.request_one_host (fun i => some (e i)) k hs scores atts).1.length
        = atts.length + hs.length
      ∧ (ESAgent.request_one_host (fun i => some (e i)) k hs scores atts).2.1
        = .esError "No elastic search hosts are responding." := by
  intro hs
  induction hs with
  | nil => intro k scores atts h; exact absurd rfl h
  | cons h t ih =>
      intro k scores atts _
      by_cases ht : t = []
      · subst ht
        simp [ESAgent.request_one_host]
      · have hie : t.isEmpty = false := by
          cases t with
          | nil => exact absurd rfl ht
          | cons x xs => rfl
        simp only [ESAgent.request_one_host, hie, Bool.false_eq_true, if_false]
        have h2 := ih (k + 1) (ESAgent.decScore scores h)
          (atts ++ [(h :: t).getLast (by simp)]) ht
        refine ⟨?_, h2.2⟩
        have h1 := h2.1
        simp only [List.length_append, List.length_singleton] at h1 ⊢
        rw [h1]
        simp only [List.length_cons]
        omega

/-- `insertByScore` adds exactly one element. -/
theorem insertByScore_length (h : String × Int) :
    ∀ (l : List (String × Int)), (ESAgent.insertByScore h l).length = l.length + 1 := by
  intro l
  induction l with
  | nil => rfl
  | cons x xs ih =>
      simp only [ESAgent.insertByScore]
      by_cases hc : h.2 ≤ x.2 <;> simp [hc, ih]

/-- `sorted` is a permutation in particular in length. -/
theorem sortByScore_length :
    ∀ (l : List (String × Int)), (ESAgent.sortByScore l).length = l.length := by
  intro l
  induction l with
  | nil => rfl
  | cons x xs ih => simp [ESAgent.sortByScore, insertByScore_length, ih]


/-- When every attempt fails, `ESAgent.request` makes one attempt per
entry of the (sorted, truncated) `hosts_to_try` list — that is,
`min(request_limit, len(hosts))` attempts — and ends in the fixed
`ESError`. -/
theorem agent_request_all_fail (hosts : List String) (lim : Option Int)
    (e : Nat → String)
    (hpos : 0 < (ESAgent.init hosts lim)._request_limit)
    (hh : hosts ≠ []) :
    ((ESAgent.init hosts lim).request (fun i => some (e i))).1.length
      = min (ESAgent.init hosts lim)._request_limit hosts.length
    ∧ ((ESAgent.init hosts lim).request (fun i => some (e i))).2.1
      = .esError "No elastic search hosts are responding." := by
  have hhl : (ESAgent.init hosts lim)._hosts.length = hosts.length := by
    simp [ESAgent.init]
  have hlen : (((ESAgent.sortByScore (ESAgent.init hosts lim)._hosts).map
        Prod.fst).take (ESAgent.init hosts lim)._request_limit).length
      = min (ESAgent.init hosts lim)._request_limit hosts.length := by
    simp [sortByScore_length, hhl]
  have hne : ((ESAgent.sortByScore (ESAgent.init hosts lim)._hosts).map
        Prod.fst).take (ESAgent.init hosts lim)._request_limit ≠ [] := by
    rw [← List.length_pos, hlen]
    have : 0 < hosts.length := List.length_pos.mpr hh
    omega
  have h := agent_all_fail e _ 0 (ESAgent.init hosts lim)._hosts [] hne
  rw [ESAgent.request]
  exact ⟨by simpa [hlen] using h.1, h.2⟩

/-! ## The claims -/

/-- C1: the claim says an event whose delivery raises during a flush is
present again in the post-swap buffer and retried next flush, with no
buffered event dropped.  The code cannot do this: the `except` handler's
`log('FILE LOGGING FAILED ...')` calls the imported `twisted.python.log`
module, which raises `TypeError` before `self._buffer.append(msg)` runs.
This theorem evaluates the embedded `flush` and shows (a) a flush never
leaves anything in the buffer, whatever the sink does, and (b) at the
claim's failing input — one buffered event, an always-failing sink — the
flush ends in the handler's `TypeError` with an empty buffer, and a
second flush cycle finds nothing to retry, so the event is dropped
(the spec's two-cycle scenario expects it retained). -/
theorem claim_C1 :
    (∀ (sinkOk : IRCMessage → Bool) (buffer : List IRCMessage),
        (Buffered_flush sinkOk buffer).1 = [])
    ∧ Buffered_flush (fun _ => false) [⟨5, "hello", "alice", "#chan"⟩]
        = ([], .typeError)
    ∧ Buffered_flush (fun _ => false)
        (Buffered_flush (fun _ => false) [⟨5, "hello", "alice", "#chan"⟩]).1
        = ([], .ok) :=
  ⟨Buffered_flush_fst, rfl, rfl⟩

/-- C2: the claim says each failed attempt decrements the score of the
node that was tried and each attempt targets the best-scored remaining
node.  Evaluating the embedded `ESAgent.request` at the claim's own
scenario (three fresh nodes, the first attempt fails at transport level,
the second succeeds — K = 1) shows the code instead: both attempts
target the *same* host `"c"` (`hosts_to_try[-1]`, unchanged by the pop),
and the failure decrements the score of `"a"` — the front of the
score-sorted list, a host that was never tried (the callback's own
comment says "pop off the last host", but it runs
`hosts_to_try.pop(0)`).  The attempt count K + 1 = 2 does hold. -/
theorem claim_C2 :
    (ESAgent.init ["a", "b", "c"] none).request
        (fun k => if k = 0 then some "connection refused" else none)
      = (["c", "c"], .ok "c", [("a", -1), ("b", 0), ("c", 0)]) := rfl

/-- C3 counterexample: the claim says the no-nodes error carries the
last underlying failure.  For `ESAgent` it does not: two requests whose
attempts fail with different underlying failures end in the *same*
fixed-message `ESError` (the callback discards the failure argument), so
the error cannot carry it. -/
theorem claim_C3_ce :
    ((ESAgent.init ["a", "b"] none).request
        (fun _ => some "connect timeout a:9200")).2.1
      = .esError "No elastic search hosts are responding."
    ∧ ((ESAgent.init ["a", "b"] none).request (fun _ => some "DNS failure")).2.1
      = ((ESAgent.init ["a", "b"] none).request
          (fun _ => some "connect timeout a:9200")).2.1 :=
  ⟨rfl, rfl⟩

/-- C3 (amended): when every attempted node fails at transport level,
`ElasticsearchConnection._request` raises `NoNodesLeft` after exactly N
attempts (N = number of configured nodes) carrying the last underlying
failure, and `ESAgent.request` raises `ESError` after exactly N attempts
— or the configured attempt limit if that is smaller — carrying only its
fixed message, not the last underlying failure. -/
theorem claim_C3 (cluster : List String) (seed : Nat)
    (decode : String → Option JVal) (e : Nat → String)
    (hosts : List String) (l : Int)
    (hc : cluster ≠ []) (hh : hosts ≠ []) (hl : 1 ≤ l) :
    ((ElasticsearchConnection.request decode (fun i => .exn (e i))
        ⟨cluster, seed⟩).1.length = cluster.length
      ∧ (ElasticsearchConnection.request decode (fun i => .exn (e i))
          ⟨cluster, seed⟩).2.1
        = .noNodesLeft (some (e (cluster.length - 1))))
    ∧ (((ESAgent.init hosts none).request (fun i => some (e i))).1.length
        = hosts.length
      ∧ ((ESAgent.init hosts none).request (fun i => some (e i))).2.1
        = .esError "No elastic search hosts are responding.")
    ∧ (((ESAgent.init hosts (some l)).request (fun i => some (e i))).1.length
        = min l.toNat hosts.length
      ∧ ((ESAgent.init hosts (some l)).request (fun i => some (e i))).2.1
        = .esError "No elastic search hosts are responding.") := by
  obtain ⟨c0, cr, hcl⟩ : ∃ c0 cr, cluster = c0 :: cr := by
    cases cluster with
    | nil => exact absurd rfl hc
    | cons c0 cr => exact ⟨c0, cr, rfl⟩
  refine ⟨⟨?_, ?_⟩, ?_, ?_⟩
  · have h := conn_request_loop_all_exn decode e cluster.length 0 ⟨cluster, seed⟩ none []
    simpa using h.1
  · have h := conn_request_loop_all_exn decode e cluster.length 0 ⟨cluster, seed⟩ none []
    have h2 := h.2
    rw [ElasticsearchConnection.request]
    rw [h2]
    subst hcl
    simp
  · have h := agent_request_all_fail hosts none e
      (by simpa [ESAgent.init] using List.length_pos.mpr hh) hh
    refine ⟨?_, h.2⟩
    rw [h.1]
    show min hosts.length hosts.length = hosts.length
    exact Nat.min_self _
  · have hl1 : ¬ l < 1 := by omega
    have hpos : 0 < (ESAgent.init hosts (some l))._request_limit := by
      simp only [ESAgent.init, hl1, if_false]
      omega
    have h := agent_request_all_fail hosts (some l) e hpos hh
    refine ⟨?_, h.2⟩
    rw [h.1]
    simp only [ESAgent.init, hl1, if_false]

/-- C3 witness: a two-node cluster whose attempts fail with "err0" then
"err1" raises `NoNodesLeft` carrying "err1" after 2 attempts, and a
three-host `ESAgent` makes 3 attempts with the default limit and 2 with
`request_limit=2`, failing with the fixed `ESError` both times. -/
theorem claim_C3_witness :
    ((ElasticsearchConnection.request (fun _ => none)
        (fun i => .exn (if i = 0 then "err0" else "err1"))
        ⟨["n1", "n2"], 7⟩).1.length = 2
      ∧ (ElasticsearchConnection.request (fun _ => none)
          (fun i => .exn (if i = 0 then "err0" else "err1"))
          ⟨["n1", "n2"], 7⟩).2.1 = .noNodesLeft (some "err1"))
    ∧ (((ESAgent.init ["a", "b", "c"] none).request
          (fun i => some (if i = 0 then "err0" else "err1"))).1.length = 3
      ∧ ((ESAgent.init ["a", "b", "c"] none).request
          (fun i => some (if i = 0 then "err0" else "err1"))).2.1
        = .esError "No elastic search hosts are responding.")
    ∧ (((ESAgent.init ["a", "b", "c"] (some 2)).request
          (fun i => some (if i = 0 then "err0" else "err1"))).1.length = 2
      ∧ ((ESAgent.init ["a", "b", "c"] (some 2)).request
          (fun i => some (if i = 0 then "err0" else "err1"))).2.1
        = .esError "No elastic search hosts are responding.") :=
  claim_C3 ["n1", "n2"] 7 (fun _ => none)
    (fun i => if i = 0 then "err0" else "err1") ["a", "b", "c"] 2
    (by decide) (by decide) (by decide)

/-- C4 counterexample: the claim says a response body that cannot be
decoded is treated as a transport-level failure of that node and the
request is retried against the next-best node.  Evaluating the embedded
`_request` on a two-node cluster whose first node returns an undecodable
body shows the opposite: the `ValueError` from `json.loads` (raised in
the `else:` clause, outside the `try:`) propagates to the caller after a
single attempt — `"n2"` is never tried and nothing is recorded. -/
theorem claim_C4_ce :
    ElasticsearchConnection.request
        (fun s => if s = "not json" then none else some .null)
        (fun _ => .body "not json") ⟨["n1", "n2"], 0⟩
      = (["n1"], .decodeError, ⟨["n1", "n2"], 1⟩) := rfl

/-- C4 (amended): for every request whose first attempt yields a
response body that fails to decode as JSON, the decoding error
propagates to the caller after exactly that one attempt; no retry
against the remaining nodes happens (and the connection keeps no
per-node failure record at all — only exceptions raised while
connecting/fetching are caught and retried). -/
theorem claim_C4 (cluster : List String) (seed : Nat)
    (decode : String → Option JVal) (outcomes : Nat → FetchOutcome)
    (raw : String) (hc : cluster ≠ []) (h0 : outcomes 0 = .body raw)
    (hd : decode raw = none) :
    (ElasticsearchConnection.request decode outcomes ⟨cluster, seed⟩).1.length = 1
    ∧ (ElasticsearchConnection.request decode outcomes ⟨cluster, seed⟩).2.1
      = .decodeError := by
  obtain ⟨c0, cr, rfl⟩ : ∃ c0 cr, cluster = c0 :: cr := by
    cases cluster with
    | nil => exact absurd rfl hc
    | cons c0 cr => exact ⟨c0, cr, rfl⟩
  rw [ElasticsearchConnection.request]
  simp only [List.length_cons]
  rw [ElasticsearchConnection.request_loop]
  simp [h0, hd]

/-- C4 witness: the concrete two-node run of the amended statement. -/
theorem claim_C4_witness :
    (ElasticsearchConnection.request
        (fun s => if s = "not json" then none else some .null)
        (fun _ => .body "not json") ⟨["n1", "n2"], 0⟩).1.length = 1
    ∧ (ElasticsearchConnection.request
        (fun s => if s = "not json" then none else some .null)
        (fun _ => .body "not json") ⟨["n1", "n2"], 0⟩).2.1 = .decodeError :=
  claim_C4 ["n1", "n2"] 0 (fun s => if s = "not json" then none else some .null)
    (fun _ => .body "not json") "not json" (by decide) rfl rfl

/-- C5 counterexample: the claim says `needs_refresh` is true after
every `facet` and pagination (`limit`) change.  On a clean queryset
(fresh `count()` against a stub client left the flag false), `facet`
and `limit` leave the flag false — neither touches `_need_refresh`. -/
theorem claim_C5_ce :
    ((((ElasticsearchQueryset.init []).count (fun _ => .obj [])).2).facet
        ["user"])._need_refresh = false
    ∧ ((((ElasticsearchQueryset.init []).count (fun _ => .obj [])).2).limit
        5)._need_refresh = false := ⟨rfl, rfl⟩

/-- C5 (amended): `_need_refresh` is true immediately after construction
and after every `filter`, `order_by` and slice; `facet` and `limit`
leave it unchanged; it becomes false exactly through the refresh that
`count()`, forced iteration (`results`) or `facets` access run; and
while it is false those accessors serve the cached `_results`,
`_facets` and state untouched, for every possible client — i.e. without
any store round trip. -/
theorem claim_C5 :
    (∀ qs, (ElasticsearchQueryset.init qs)._need_refresh = true)
    ∧ (∀ q s kw, (ElasticsearchQueryset.filter q s kw)._need_refresh = true)
    ∧ (∀ q f, (ElasticsearchQueryset.order_by q f)._need_refresh = true)
    ∧ (∀ q a b, (ElasticsearchQueryset.getitem_slice q a b)._need_refresh = true)
    ∧ (∀ q fs, (ElasticsearchQueryset.facet q fs)._need_refresh = q._need_refresh)
    ∧ (∀ q n, (ElasticsearchQueryset.limit q n)._need_refresh = q._need_refresh)
    ∧ (∀ client q,
        (ElasticsearchQueryset.count client q).2._need_refresh = false
        ∧ (ElasticsearchQueryset.results client q).2._need_refresh = false
        ∧ (ElasticsearchQueryset.facets client q).2._need_refresh = false)
    ∧ (∀ client q, q._need_refresh = false →
        ElasticsearchQueryset.count client q = (q._results.length, q)
        ∧ ElasticsearchQueryset.results client q = (q._results, q)
        ∧ ElasticsearchQueryset.facets client q = (q._facets, q)) := by
  refine ⟨fun qs => rfl, fun q s kw => rfl, fun q f => rfl, ?_, fun q fs => rfl,
    fun q n => rfl, ?_, ?_⟩
  · intro q a b
    cases a <;> cases b <;>
      simp only [ElasticsearchQueryset.getitem_slice] <;>
      (repeat' split) <;> simp
  · intro client q
    by_cases h : q._need_refresh
    all_goals simp [ElasticsearchQueryset.count, ElasticsearchQueryset.results,
      ElasticsearchQueryset.facets, ElasticsearchQueryset.refresh,
      ElasticsearchQueryset.parse_raw_response, h]
  · intro client q h
    simp [ElasticsearchQueryset.count, ElasticsearchQueryset.results,
      ElasticsearchQueryset.facets, h]

/-- C5 witness: a clean queryset's `results` access serves the cached
(empty) result list and leaves the state untouched. -/
theorem claim_C5_witness :
    ElasticsearchQueryset.results (fun _ => .obj [])
        ((ElasticsearchQueryset.init []).count (fun _ => .obj [])).2
      = ([], ((ElasticsearchQueryset.init []).count (fun _ => .obj [])).2) :=
  (claim_C5.2.2.2.2.2.2.2 (fun _ => .obj [])
    ((ElasticsearchQueryset.init []).count (fun _ => .obj [])).2 rfl).2.1

/-- C6: slicing with truthy (positive) bounds sets `_offset` from the
slice start and `_size` from the slice stop (`stop - offset`, with the
offset just set), and — for every non-negative slice, whatever its
bounds, including bounds equal to the offset/size already in effect —
unconditionally sets `_need_refresh` and returns the same queryset
state with every other field untouched; `getitem_slice` takes no client
and can execute no query. -/
theorem claim_C6 (q : ElasticsearchQueryset) (s e : Int)
    (hs : 0 < s) (he : 0 < e) :
    ((q.getitem_slice (some s) (some e))._offset = s
      ∧ (q.getitem_slice (some s) (some e))._size = e - s)
    ∧ (∀ (a b : Option Int),
        (q.getitem_slice a b)._need_refresh = true
        ∧ (q.getitem_slice a b)._query = q._query
        ∧ (q.getitem_slice a b)._results = q._results
        ∧ (q.getitem_slice a b)._facets = q._facets
        ∧ (q.getitem_slice a b)._order_by = q._order_by
        ∧ (q.getitem_slice a b)._faceted_on = q._faceted_on
        ∧ (q.getitem_slice a b)._raw_response = q._raw_response) := by
  have hs' : (s != 0) = true := by simp; omega
  have he' : (e != 0) = true := by simp; omega
  constructor
  · simp [ElasticsearchQueryset.getitem_slice, hs', he']
  · intro a b
    cases a <;> cases b <;>
      simp only [ElasticsearchQueryset.getitem_slice] <;>
      (repeat' split) <;> simp

/-- C6 witness: `qs[10:20]` on a fresh queryset leaves offset 10, size
10, and the dirty flag set. -/
theorem claim_C6_witness :
    ((ElasticsearchQueryset.init []).getitem_slice (some 10) (some 20))._offset = 10
    ∧ ((ElasticsearchQueryset.init []).getitem_slice (some 10) (some 20))._size = 10
    ∧ ((ElasticsearchQueryset.init []).getitem_slice (some 10)
        (some 20))._need_refresh = true := by
  have h := claim_C6 (ElasticsearchQueryset.init []) 10 20 (by decide) (by decide)
  exact ⟨h.1.1, h.1.2, (h.2 (some 10) (some 20)).1⟩

/-- C7 counterexample: the claim says the `QueryStringQuery` is present
iff a free-text string was given.  Giving the empty string is giving a
string, but `if query_string:` is false for `""`, so no
`QueryStringQuery` is produced. -/
theorem claim_C7_ce :
    parse_query (some "") [("user", "bob")] = [.termQuery "user" "bob"] := rfl

/-- C7 (amended): `parse_query(s, **pairs)` returns exactly one
`QueryStringQuery(s)` — present iff `s` was given *and is non-empty* —
followed by exactly one `TermQuery(field, value)` per pair, in the
order the pairs are iterated. -/
theorem claim_C7 (s : String) (kwargs : List (String × String))
    (hs : s ≠ "") :
    parse_query (some s) kwargs
      = .queryStringQuery s :: kwargs.map (fun kv => .termQuery kv.1 kv.2)
    ∧ parse_query none kwargs = kwargs.map (fun kv => .termQuery kv.1 kv.2)
    ∧ parse_query (some "") kwargs
      = kwargs.map (fun kv => .termQuery kv.1 kv.2) := by
  refine ⟨?_, rfl, by simp [parse_query]⟩
  simp [parse_query, hs]

/-- C7 witness: the spec's own example,
`parse_query("foo", user="bob")`. -/
theorem claim_C7_witness :
    parse_query (some "foo") [("user", "bob")]
      = [.queryStringQuery "foo", .termQuery "user" "bob"] :=
  (claim_C7 "foo" [("user", "bob")] (by decide)).1

/-- C8: the claim says a top-level `RawQuery` is serialized verbatim as
the request body.  Evaluating the embedded `build_query` at
`RawQuery(match_all)` shows the function instead returns Python `None`
(the `return json.dumps(query)` sits inside the `if not
isinstance(query, RawQuery):` block, so the raw branch falls off the
end) — contradicting both the claim and the function's own docstring
(`@returns: string - JSON suitable for searching`).  The claim's
non-raw half does hold: a list of fragments is wrapped in a
constant-score filter that ANDs them, as the second conjunct shows. -/
theorem claim_C8 :
    build_query (.single (.rawQuery (.obj [("match_all", .obj [])]))) [] = none
    ∧ build_query (.listV [.queryStringQuery "foo", .termQuery "user" "bob"]) []
      = some (.obj [("query", .obj [("constant_score", .obj [("filter",
          .obj [("and", .arr [
            .obj [("query", .obj [("query_string", .obj [("query", .str "foo")])])],
            .obj [("term", .obj [("user", .str "bob")])]])])])])]) :=
  ⟨rfl, rfl⟩

/-- C9: a message on a configured channel is written to that channel's
own `DailyFileLogger` (daily rotation); a message on an unconfigured,
non-system channel is written to the size-rotated system `LogFile`,
prefixed as an unrecognized-channel message. -/
theorem claim_C9 (channels : List String) (sysLen : Int)
    (asctime : Nat → String) (m : IRCMessage) :
    ((MultiChannelFileLogger.init channels sysLen)._channel_loggers
        = channels.map (fun c => (c, .daily))
      ∧ (MultiChannelFileLogger.init channels sysLen)._system_logger
        = .bySize sysLen)
    ∧ (m.channel ∈ channels →
        (MultiChannelFileLogger.init channels sysLen).log asctime m
          = .channelFile m.channel (message_to_string asctime m ++ "\n"))
    ∧ (m.channel ∉ channels → m.channel ≠ "SYSTEM_LOG" →
        (MultiChannelFileLogger.init channels sysLen).log asctime m
          = .systemFile ("-- Received message from unknown channel:\n\t"
              ++ (message_to_string asctime m ++ "\n"))) := by
  refine ⟨⟨rfl, rfl⟩, ?_, ?_⟩
  · intro h
    have hmem : ((channels.map (fun c => (c, RotatePolicy.daily))).any
        (fun kv => kv.1 = m.channel)) = true := by
      simp only [List.any_eq_true]
      exact ⟨(m.channel, .daily), List.mem_map_of_mem _ h, by simp⟩
    simp [MultiChannelFileLogger.log, MultiChannelFileLogger.init, hmem]
  · intro h hsys
    have hmem : ((channels.map (fun c => (c, RotatePolicy.daily))).any
        (fun kv => kv.1 = m.channel)) = false := by
      rw [Bool.eq_false_iff]
      intro hany
      rw [List.any_eq_true] at hany
      obtain ⟨kv, hkv, hEq⟩ := hany
      rw [List.mem_map] at hkv
      obtain ⟨c, hc, rfl⟩ := hkv
      simp only [decide_eq_true_eq] at hEq
      exact h (hEq ▸ hc)
    simp [MultiChannelFileLogger.log, MultiChannelFileLogger.init, hmem, hsys]

/-- C9 witness: the spec scenario — channels `["#a", "#b"]`, a message
on `"#c"` goes to the system file with the unknown-channel mark, and a
message on `"#a"` goes to `#a`'s daily file. -/
theorem claim_C9_witness :
    (MultiChannelFileLogger.init ["#a", "#b"] 1000000).log (fun _ => "Mon")
        ⟨5, "hi", "u", "#c"⟩
      = .systemFile "-- Received message from unknown channel:\n\t[#c] Mon :  <u> hi\n"
    ∧ (MultiChannelFileLogger.init ["#a", "#b"] 1000000).log (fun _ => "Mon")
        ⟨5, "hi", "u", "#a"⟩
      = .channelFile "#a" "[#a] Mon :  <u> hi\n" := by
  constructor
  · exact ((claim_C9 ["#a", "#b"] 1000000 (fun _ => "Mon")
      ⟨5, "hi", "u", "#c"⟩).2.2 (by decide) (by decide)).trans (by rfl)
  · exact ((claim_C9 ["#a", "#b"] 1000000 (fun _ => "Mon")
      ⟨5, "hi", "u", "#a"⟩).2.1 (by decide)).trans (by rfl)

/-- C10: a slice whose start is `None` or `0` (falsy) leaves the
previous `_offset` unchanged, and a truthy stop sets `_size` to `stop -
current offset` — so `qs[10:][0:20]` keeps offset 10 and sets size 10. -/
theorem claim_C10 (q : ElasticsearchQueryset) (e : Int) (he : 0 < e) :
    ((q.getitem_slice none (some e))._offset = q._offset
      ∧ (q.getitem_slice none (some e))._size = e - q._offset)
    ∧ ((q.getitem_slice (some 0) (some e))._offset = q._offset
      ∧ (q.getitem_slice (some 0) (some e))._size = e - q._offset)
    ∧ (∀ (b : Option Int),
        (q.getitem_slice none b)._offset = q._offset
        ∧ (q.getitem_slice (some 0) b)._offset = q._offset) := by
  have he' : (e != 0) = true := by simp; omega
  refine ⟨?_, ?_, ?_⟩
  · simp [ElasticsearchQueryset.getitem_slice, he']
  · simp [ElasticsearchQueryset.getitem_slice, he']
  · intro b
    cases b <;> simp only [ElasticsearchQueryset.getitem_slice] <;>
      (repeat' split) <;> simp_all

/-- C10 witness: `qs[10:][0:20]` ends with offset 10 and size 10 (not
offset 0 and size 20). -/
theorem claim_C10_witness :
    (((ElasticsearchQueryset.init []).getitem_slice (some 10) none).getitem_slice
        (some 0) (some 20))._offset = 10
    ∧ (((ElasticsearchQueryset.init []).getitem_slice (some 10) none).getitem_slice
        (some 0) (some 20))._size = 10 := by
  have h := claim_C10
    ((ElasticsearchQueryset.init []).getitem_slice (some 10) none) 20 (by decide)
  exact ⟨h.2.1.1, h.2.1.2⟩

end Slogger
